import Mathlib

/-! Shallow embedding of quetz/config.py, the configuration-resolution
subsystem: the typed settings schema, configuration-file location, the
process-wide registry of Config wrapper instances, storage-backend selection,
logging configuration and plugin bootstrapping.  The source builds its
settings tree with pydantic v1 BaseSettings, so the embedding also encodes
the documented pydantic v1 construction semantics that the source relies on:
field priority is init kwargs over environment variables over defaults
(deep_update of the env-sourced dict with the init kwargs), environment
names are the env_prefix concatenated with the field name and are matched
case-insensitively, complex fields read from the environment are parsed as
JSON, and pydantic model instances expose exactly their declared fields
(plus the BaseModel methods) as attributes and are always truthy. -/

namespace Quetz

/-- Python runtime values as they appear in parsed configuration tables and
as attributes of pydantic model instances. -/
inductive PyVal where
  | vStr (s : String)
  | vInt (i : Int)
  | vBool (b : Bool)
  | vStrList (l : List String)
  | vNone
  | vSection
  | vMethod (name : String)
deriving DecidableEq

/-- Location of a validation error, e.g. [sqlalchemy, database_url]. -/
abbrev Loc := List String

abbrev Locs := List Loc

/-- Python exceptions raised by the embedded code: AttributeError from a
failed attribute lookup, quetz.errors.ConfigError, and pydantic
ValidationError carrying the locations of the offending fields. -/
inductive PyErr where
  | attributeError (name : String)
  | configError (msg : String)
  | validationError (locs : Locs)
deriving DecidableEq

abbrev Env := List (String × String)

abbrev Table := List (String × PyVal)

abbrev Toml := List (String × Table)

/-- os.environ exact-name lookup, i.e. os.getenv / os.environ.get. -/
def envGet (env : Env) (name : String) : Option String :=
  match env with
  | [] => none
  | (k, v) :: rest => if k = name then some v else envGet rest name

/-- ASCII lowercasing, modelling the case-insensitive matching of
environment variable names. -/
def charLower (c : Char) : Char :=
  if c.isUpper then Char.ofNat (c.toNat + 32) else c

def pyLower (s : String) : String :=
  String.mk (s.data.map charLower)

/-- pydantic v1 environment lookup: Config.case_sensitive defaults to False,
so variable names are matched lowercased. -/
def envLookup (env : Env) (name : String) : Option String :=
  match env with
  | [] => none
  | (k, v) :: rest => if pyLower k = pyLower name then some v else envLookup rest name

def tblLookup (t : Table) (k : String) : Option PyVal :=
  match t with
  | [] => none
  | (k1, v) :: rest => if k1 = k then some v else tblLookup rest k

def tomlLookup (t : Toml) (k : String) : Option Table :=
  match t with
  | [] => none
  | (k1, v) :: rest => if k1 = k then some v else tomlLookup rest k

/-- The ambient process state that config.py reads: environment variables,
filesystem probes and reads, path normalisation (os.path.abspath), the toml
parser, JSON parsing used by pydantic for complex env-sourced fields, the
appdirs-derived configuration directories, the working directory, and the
set of plugins discoverable through the setuptools quetz entry point. -/
structure World where
  env : Env
  isfile : String → Bool
  readFile : String → String
  abspath : String → String
  parseToml : String → Except String Toml
  parseJsonTable : String → Option Table
  parseJsonStrList : String → Option (List String)
  site_dir : String
  user_dir : String
  curdir : String
  installedPlugins : List String

/-- pydantic v1 str coercion: strings pass through, numbers and bools are
converted with str(). -/
def coerceStr : PyVal → Option String
  | .vStr s => some s
  | .vInt i => some (toString i)
  | .vBool b => some (if b then "True" else "False")
  | _ => none

/-- pydantic v1 bool coercion for strings (bool_validator). -/
def pyParseBool (s : String) : Option Bool :=
  let t := s.toLower
  if t == "true" || t == "t" || t == "yes" || t == "y" || t == "on" || t == "1" then
    some true
  else if t == "false" || t == "f" || t == "no" || t == "n" || t == "off" || t == "0" then
    some false
  else none

def coerceBool : PyVal → Option Bool
  | .vBool b => some b
  | .vInt i => if i == 1 then some true else if i == 0 then some false else none
  | .vStr s => pyParseBool s
  | _ => none

def coerceInt : PyVal → Option Int
  | .vInt i => some i
  | .vBool b => some (if b then 1 else 0)
  | .vStr s => s.toInt?
  | _ => none

/-- Resolve one str-typed field of a section model, following pydantic v1
priority: init kwargs (the parsed file section), then the environment
variable named env_prefix ++ field name, then the default; a required field
with no source is a validation error located at (section, field). -/
def strF (w : World) (sec : String) (kw : Table) (name : String)
    (dflt : Option String) : Except Locs String :=
  match tblLookup kw name with
  | some v =>
    match coerceStr v with
    | some s => .ok s
    | none => .error [[sec, name]]
  | none =>
    match envLookup w.env (sec ++ name) with
    | some raw => .ok raw
    | none =>
      match dflt with
      | some d => .ok d
      | none => .error [[sec, name]]

def intF (w : World) (sec : String) (kw : Table) (name : String)
    (dflt : Option Int) : Except Locs Int :=
  match tblLookup kw name with
  | some v =>
    match coerceInt v with
    | some i => .ok i
    | none => .error [[sec, name]]
  | none =>
    match (envLookup w.env (sec ++ name)).bind (fun raw => coerceInt (.vStr raw)) with
    | some i => .ok i
    | none =>
      match dflt with
      | some d => .ok d
      | none => .error [[sec, name]]

def boolF (w : World) (sec : String) (kw : Table) (name : String)
    (dflt : Option Bool) : Except Locs Bool :=
  match tblLookup kw name with
  | some v =>
    match coerceBool v with
    | some b => .ok b
    | none => .error [[sec, name]]
  | none =>
    match (envLookup w.env (sec ++ name)).bind (fun raw => coerceBool (.vStr raw)) with
    | some b => .ok b
    | none =>
      match dflt with
      | some d => .ok d
      | none => .error [[sec, name]]

/-- List-of-str fields: a file value must already be a list; an env value is
parsed as JSON (pydantic treats list fields as complex). -/
def strListF (w : World) (sec : String) (kw : Table) (name : String)
    (dflt : Option (List String)) : Except Locs (List String) :=
  match tblLookup kw name with
  | some (.vStrList l) => .ok l
  | some _ => .error [[sec, name]]
  | none =>
    match (envLookup w.env (sec ++ name)).bind w.parseJsonStrList with
    | some l => .ok l
    | none =>
      match dflt with
      | some d => .ok d
      | none => .error [[sec, name]]

/-- Optional int field (gcs.cache_timeout): absent means None. -/
def optIntF (w : World) (sec : String) (kw : Table) (name : String) :
    Except Locs (Option Int) :=
  match tblLookup kw name with
  | some v =>
    match coerceInt v with
    | some i => .ok (some i)
    | none => .error [[sec, name]]
  | none =>
    match (envLookup w.env (sec ++ name)).bind (fun raw => coerceInt (.vStr raw)) with
    | some i => .ok (some i)
    | none => .ok none

/-- Optional str field (gcs.region): absent means None. -/
def optStrF (w : World) (sec : String) (kw : Table) (name : String) :
    Except Locs (Option String) :=
  match tblLookup kw name with
  | some v =>
    match coerceStr v with
    | some s => .ok (some s)
    | none => .error [[sec, name]]
  | none =>
    match envLookup w.env (sec ++ name) with
    | some raw => .ok (some raw)
    | none => .ok none

/-- Float fields only occur in sections never examined by the claims
(profiling.interval_seconds); toml float literals and env-sourced floats are
not modelled, ints are widened. -/
def floatF (_w : World) (sec : String) (kw : Table) (name : String)
    (dflt : Float) : Except Locs Float :=
  match tblLookup kw name with
  | some (.vInt i) => .ok (Float.ofInt i)
  | some _ => .error [[sec, name]]
  | none => .ok dflt

structure SettingsGeneral where
  package_unpack_threads : Int
  frontend_dir : String
  redirect_http_to_https : Bool

structure SettingsCORS where
  allow_origins : List String
  allow_credentials : Bool
  allow_methods : List String
  allow_headers : List String

structure SettingsGitHub where
  client_id : String
  client_secret : String

structure SettingsGitLab where
  url : String
  client_id : String
  client_secret : String

structure SettingsAzureAD where
  client_id : String
  client_secret : String
  tenant_id : String

structure SettingsSQLAlchemy where
  database_url : String
  database_plugin_path : String
  echo_sql : Bool
  postgres_pool_size : Int
  postgres_max_overflow : Int

structure SettingsSession where
  secret : String
  https_only : Bool

structure SettingsLocalStore where
  redirect_enabled : Bool
  redirect_endpoint : String
  redirect_secret : String
  redirect_expiration : Int

structure SettingsS3 where
  access_key : String
  secret_key : String
  url : String
  region : String
  bucket_prefix : String
  bucket_suffix : String

structure SettingsAzureBlob where
  account_name : String
  account_access_key : String
  conn_str : String
  container_prefix : String
  container_suffix : String

structure SettingsGCS where
  project : String
  token : String
  bucket_prefix : String
  bucket_suffix : String
  cache_timeout : Option Int
  region : Option String

structure SettingsGoogle where
  client_id : String
  client_secret : String

structure SettingsLogging where
  level : String
  file : String

structure SettingsUsers where
  admins : List String
  maintainers : List String
  members : List String
  default_role : PyVal
  collect_emails : Bool
  create_default_channel : Bool

structure SettingsWorker where
  type : String
  redis_ip : String
  redis_port : Int
  redis_db : Int

structure SettingsPlugins where
  enabled : List String

structure SettingsMirroring where
  batch_length : Int
  batch_size : Int
  num_parallel_downloads : Int

structure SettingsQuotas where
  channel_quota : Int

structure SettingsProfiling where
  enable_sampling : Bool
  interval_seconds : Float

def mkGeneral (w : World) (kw : Table) : Except Locs SettingsGeneral := do
  let a ← intF w "general" kw "package_unpack_threads" (some 1)
  let b ← strF w "general" kw "frontend_dir" (some "")
  let c ← boolF w "general" kw "redirect_http_to_https" (some false)
  return { package_unpack_threads := a, frontend_dir := b, redirect_http_to_https := c }

def mkCORS (w : World) (kw : Table) : Except Locs SettingsCORS := do
  let a ← strListF w "cors" kw "allow_origins" (some [])
  let b ← boolF w "cors" kw "allow_credentials" (some true)
  let c ← strListF w "cors" kw "allow_methods" (some ["*"])
  let d ← strListF w "cors" kw "allow_headers" (some ["*"])
  return { allow_origins := a, allow_credentials := b, allow_methods := c, allow_headers := d }

def mkGitHub (w : World) (kw : Table) : Except Locs SettingsGitHub := do
  let a ← strF w "github" kw "client_id" none
  let b ← strF w "github" kw "client_secret" none
  return { client_id := a, client_secret := b }

def mkGitLab (w : World) (kw : Table) : Except Locs SettingsGitLab := do
  let u ← strF w "gitlab" kw "url" (some "https://gitlab.com")
  let a ← strF w "gitlab" kw "client_id" none
  let b ← strF w "gitlab" kw "client_secret" none
  return { url := u, client_id := a, client_secret := b }

def mkAzureAD (w : World) (kw : Table) : Except Locs SettingsAzureAD := do
  let a ← strF w "azuread" kw "client_id" none
  let b ← strF w "azuread" kw "client_secret" none
  let c ← strF w "azuread" kw "tenant_id" none
  return { client_id := a, client_secret := b, tenant_id := c }

def mkSQLAlchemy (w : World) (kw : Table) : Except Locs SettingsSQLAlchemy := do
  let a ← strF w "sqlalchemy" kw "database_url" none
  let b ← strF w "sqlalchemy" kw "database_plugin_path" (some "")
  let c ← boolF w "sqlalchemy" kw "echo_sql" (some false)
  let d ← intF w "sqlalchemy" kw "postgres_pool_size" (some 100)
  let e ← intF w "sqlalchemy" kw "postgres_max_overflow" (some 100)
  return { database_url := a, database_plugin_path := b, echo_sql := c,
           postgres_pool_size := d, postgres_max_overflow := e }

def mkSession (w : World) (kw : Table) : Except Locs SettingsSession := do
  let a ← strF w "session" kw "secret" none
  let b ← boolF w "session" kw "https_only" (some true)
  return { secret := a, https_only := b }

def mkLocalStore (w : World) (kw : Table) : Except Locs SettingsLocalStore := do
  let a ← boolF w "local_store" kw "redirect_enabled" (some false)
  let b ← strF w "local_store" kw "redirect_endpoint" (some "/files")
  let c ← strF w "local_store" kw "redirect_secret" (some "")
  let d ← intF w "local_store" kw "redirect_expiration" (some 3600)
  return { redirect_enabled := a, redirect_endpoint := b, redirect_secret := c,
           redirect_expiration := d }

def mkS3 (w : World) (kw : Table) : Except Locs SettingsS3 := do
  let a ← strF w "s3" kw "access_key" (some "")
  let b ← strF w "s3" kw "secret_key" (some "")
  let c ← strF w "s3" kw "url" (some "")
  let d ← strF w "s3" kw "region" (some "")
  let e ← strF w "s3" kw "bucket_prefix" (some "")
  let f ← strF w "s3" kw "bucket_suffix" (some "")
  return { access_key := a, secret_key := b, url := c, region := d,
           bucket_prefix := e, bucket_suffix := f }

def mkAzureBlob (w : World) (kw : Table) : Except Locs SettingsAzureBlob := do
  let a ← strF w "azure_blob" kw "account_name" (some "")
  let b ← strF w "azure_blob" kw "account_access_key" (some "")
  let c ← strF w "azure_blob" kw "conn_str" (some "")
  let d ← strF w "azure_blob" kw "container_prefix" (some "")
  let e ← strF w "azure_blob" kw "container_suffix" (some "")
  return { account_name := a, account_access_key := b, conn_str := c,
           container_prefix := d, container_suffix := e }

def mkGCS (w : World) (kw : Table) : Except Locs SettingsGCS := do
  let a ← strF w "gcs" kw "project" (some "")
  let b ← strF w "gcs" kw "token" (some "")
  let c ← strF w "gcs" kw "bucket_prefix" (some "")
  let d ← strF w "gcs" kw "bucket_suffix" (some "")
  let e ← optIntF w "gcs" kw "cache_timeout"
  let f ← optStrF w "gcs" kw "region"
  return { project := a, token := b, bucket_prefix := c, bucket_suffix := d,
           cache_timeout := e, region := f }

def mkGoogle (w : World) (kw : Table) : Except Locs SettingsGoogle := do
  let a ← strF w "google" kw "client_id" none
  let b ← strF w "google" kw "client_secret" none
  return { client_id := a, client_secret := b }

def mkLogging (w : World) (kw : Table) : Except Locs SettingsLogging := do
  let a ← strF w "logging" kw "level" (some "INFO")
  let b ← strF w "logging" kw "file" (some "")
  return { level := a, file := b }

def mkUsers (w : World) (kw : Table) : Except Locs SettingsUsers := do
  let a ← strListF w "users" kw "admins" (some [])
  let b ← strListF w "users" kw "maintainers" (some [])
  let c ← strListF w "users" kw "members" (some [])
  let d ← (match tblLookup kw "default_role" with
    | some (.vStr s) => Except.ok (PyVal.vStr s)
    | some (.vBool b) => Except.ok (PyVal.vBool b)
    | some _ => Except.error [["users", "default_role"]]
    | none =>
      match envLookup w.env "usersdefault_role" with
      | some raw => Except.ok (PyVal.vStr raw)
      | none => Except.ok (PyVal.vBool false))
  let e ← boolF w "users" kw "collect_emails" (some false)
  let f ← boolF w "users" kw "create_default_channel" (some false)
  return { admins := a, maintainers := b, members := c, default_role := d,
           collect_emails := e, create_default_channel := f }

/-- SettingsWorker is a plain class, not a BaseSettings model; pydantic v1
validates an Optional field of an arbitrary class with an isinstance check,
so any parsed table supplied for the worker section fails validation. -/
def mkWorker (_w : World) (_kw : Table) : Except Locs SettingsWorker :=
  .error [["worker"]]

def mkPlugins (w : World) (kw : Table) : Except Locs SettingsPlugins := do
  let a ← strListF w "plugins" kw "enabled" (some [])
  return { enabled := a }

/-- batch_size is declared int with default 1e8; BaseSettings validates
defaults (validate_all), coercing it to the integer 100000000. -/
def mkMirroring (w : World) (kw : Table) : Except Locs SettingsMirroring := do
  let a ← intF w "mirroring" kw "batch_length" (some 10)
  let b ← intF w "mirroring" kw "batch_size" (some 100000000)
  let c ← intF w "mirroring" kw "num_parallel_downloads" (some 10)
  return { batch_length := a, batch_size := b, num_parallel_downloads := c }

def mkQuotas (w : World) (kw : Table) : Except Locs SettingsQuotas := do
  let a ← intF w "quotas" kw "channel_quota" none
  return { channel_quota := a }

def mkProfiling (w : World) (kw : Table) : Except Locs SettingsProfiling := do
  let a ← boolF w "profiling" kw "enable_sampling" (some false)
  let b ← floatF w "profiling" kw "interval_seconds" 0.001
  return { enable_sampling := a, interval_seconds := b }

/-- The root settings tree (class Settings), one field per section. -/
structure Settings where
  general : SettingsGeneral
  cors : Option SettingsCORS
  github : Option SettingsGitHub
  gitlab : Option SettingsGitLab
  azuread : Option SettingsAzureAD
  sqlalchemy : SettingsSQLAlchemy
  session : SettingsSession
  local_store : SettingsLocalStore
  s3 : Option SettingsS3
  azure_blob : Option SettingsAzureBlob
  gcs : Option SettingsGCS
  google : Option SettingsGoogle
  logging : Option SettingsLogging
  users : Option SettingsUsers
  worker : Option SettingsWorker
  plugins : SettingsPlugins
  mirroring : SettingsMirroring
  quotas : Option SettingsQuotas
  profiling : Option SettingsProfiling

def defGeneral : SettingsGeneral :=
  { package_unpack_threads := 1, frontend_dir := "", redirect_http_to_https := false }

def defSQLAlchemy : SettingsSQLAlchemy :=
  { database_url := "", database_plugin_path := "", echo_sql := false,
    postgres_pool_size := 100, postgres_max_overflow := 100 }

def defSession : SettingsSession := { secret := "", https_only := true }

def defLocalStore : SettingsLocalStore :=
  { redirect_enabled := false, redirect_endpoint := "/files", redirect_secret := "",
    redirect_expiration := 3600 }

def defPlugins : SettingsPlugins := { enabled := [] }

def defMirroring : SettingsMirroring :=
  { batch_length := 10, batch_size := 100000000, num_parallel_downloads := 10 }

/-- Top-level env source: the root Settings model has env_prefix quetz, and
each section field is complex, so its environment value (if any) is the
variable quetz ++ section-name parsed as a JSON table. -/
def envTopTable (w : World) (name : String) : Option Table :=
  (envLookup w.env ("quetz" ++ name)).bind w.parseJsonTable

/-- pydantic deep_update at the level of one section: the init kwargs (file)
table overrides the env-sourced table field by field. -/
def mergeTables (envT fileT : Table) : Table :=
  fileT ++ envT.filter (fun p => (tblLookup fileT p.1).isNone)

/-- The value feeding one section field of the root model: deep_update of
the env settings with the init kwargs (file sections win field-wise). -/
def topSrc (w : World) (kwargs : Toml) (name : String) : Option Table :=
  match tomlLookup kwargs name, envTopTable w name with
  | some f, some e => some (mergeTables e f)
  | some f, none => some f
  | none, some e => some e
  | none, none => none

def errsOf {α : Type} : Except Locs α → Locs
  | .ok _ => []
  | .error l => l

def okOf {α : Type} (d : α) : Except Locs α → α
  | .ok v => v
  | .error _ => d

/-- An optional section: absent means None, present means validated. -/
def optSection {α : Type} (mk : Table → Except Locs α) :
    Option Table → Except Locs (Option α)
  | none => .ok none
  | some t => (mk t).map some

/-- A required section with no default: absent is a missing-field error. -/
def reqSection {α : Type} (mk : Table → Except Locs α) (loc : Loc) :
    Option Table → Except Locs α
  | none => .error [loc]
  | some t => mk t

/-- The validation errors Settings(**kwargs) collects across its sections,
in field declaration order, as pydantic does. -/
def settingsErrs (w : World) (kwargs : Toml) : Locs :=
  errsOf (mkGeneral w ((topSrc w kwargs "general").getD [])) ++
  errsOf (optSection (mkCORS w) (topSrc w kwargs "cors")) ++
  errsOf (optSection (mkGitHub w) (topSrc w kwargs "github")) ++
  errsOf (optSection (mkGitLab w) (topSrc w kwargs "gitlab")) ++
  errsOf (optSection (mkAzureAD w) (topSrc w kwargs "azuread")) ++
  errsOf (reqSection (mkSQLAlchemy w) ["sqlalchemy"] (topSrc w kwargs "sqlalchemy")) ++
  errsOf (reqSection (mkSession w) ["session"] (topSrc w kwargs "session")) ++
  errsOf (mkLocalStore w ((topSrc w kwargs "local_store").getD [])) ++
  errsOf (optSection (mkS3 w) (topSrc w kwargs "s3")) ++
  errsOf (optSection (mkAzureBlob w) (topSrc w kwargs "azure_blob")) ++
  errsOf (optSection (mkGCS w) (topSrc w kwargs "gcs")) ++
  errsOf (optSection (mkGoogle w) (topSrc w kwargs "google")) ++
  errsOf (optSection (mkLogging w) (topSrc w kwargs "logging")) ++
  errsOf (optSection (mkUsers w) (topSrc w kwargs "users")) ++
  errsOf (optSection (mkWorker w) (topSrc w kwargs "worker")) ++
  errsOf (mkPlugins w ((topSrc w kwargs "plugins").getD [])) ++
  errsOf (mkMirroring w ((topSrc w kwargs "mirroring").getD [])) ++
  errsOf (optSection (mkQuotas w) (topSrc w kwargs "quotas")) ++
  errsOf (optSection (mkProfiling w) (topSrc w kwargs "profiling"))

/-- Settings(**kwargs): build every section from the deep_update of the env
settings with the given init kwargs; when any section failed validation the
whole construction fails with the collected errors.  Absent defaulted
sections equal the default instances (built by the section constructors
from an empty table, so field-level env vars still apply to them). -/
def settingsNew (w : World) (kwargs : Toml) : Except PyErr Settings :=
  if (settingsErrs w kwargs).isEmpty then
    .ok { general := okOf defGeneral (mkGeneral w ((topSrc w kwargs "general").getD []))
          cors := okOf none (optSection (mkCORS w) (topSrc w kwargs "cors"))
          github := okOf none (optSection (mkGitHub w) (topSrc w kwargs "github"))
          gitlab := okOf none (optSection (mkGitLab w) (topSrc w kwargs "gitlab"))
          azuread := okOf none (optSection (mkAzureAD w) (topSrc w kwargs "azuread"))
          sqlalchemy := okOf defSQLAlchemy
            (reqSection (mkSQLAlchemy w) ["sqlalchemy"] (topSrc w kwargs "sqlalchemy"))
          session := okOf defSession
            (reqSection (mkSession w) ["session"] (topSrc w kwargs "session"))
          local_store := okOf defLocalStore
            (mkLocalStore w ((topSrc w kwargs "local_store").getD []))
          s3 := okOf none (optSection (mkS3 w) (topSrc w kwargs "s3"))
          azure_blob := okOf none (optSection (mkAzureBlob w) (topSrc w kwargs "azure_blob"))
          gcs := okOf none (optSection (mkGCS w) (topSrc w kwargs "gcs"))
          google := okOf none (optSection (mkGoogle w) (topSrc w kwargs "google"))
          logging := okOf none (optSection (mkLogging w) (topSrc w kwargs "logging"))
          users := okOf none (optSection (mkUsers w) (topSrc w kwargs "users"))
          worker := okOf none (optSection (mkWorker w) (topSrc w kwargs "worker"))
          plugins := okOf defPlugins (mkPlugins w ((topSrc w kwargs "plugins").getD []))
          mirroring := okOf defMirroring
            (mkMirroring w ((topSrc w kwargs "mirroring").getD []))
          quotas := okOf none (optSection (mkQuotas w) (topSrc w kwargs "quotas"))
          profiling := okOf none (optSection (mkProfiling w) (topSrc w kwargs "profiling")) }
  else
    .error (.validationError (settingsErrs w kwargs))

def _filename : String := "config.toml"

/-- The two fixed candidate files: site dir and user dir (Config._config_files,
os.path.join modelled for the posix separator). -/
def siteFile (w : World) : String := w.site_dir ++ "/" ++ _filename

def userFile (w : World) : String := w.user_dir ++ "/" ++ _filename

/-- The early-return loop over candidate files in Config.find_file. -/
def firstExisting (w : World) : List String → Option String
  | [] => none
  | f :: rest => if w.isfile f then some f else firstExisting w rest

/-- Config.find_file: the explicit deployment path and the path named by
QUETZ_CONFIG_FILE are appended, each only when truthy and a regular file,
after the fixed site-dir and user-dir candidates; the first existing
candidate wins. -/
def find_file (w : World) (deployment_config : Option String) : Option String :=
  let config_file_env := envGet w.env "QUETZ_CONFIG_FILE"
  let deployment_config_files :=
    ([deployment_config, config_file_env].filterMap id).filter
      (fun f => f != "" && w.isfile f)
  firstExisting w ([siteFile w, userFile w] ++ deployment_config_files)

/-- Config._read_config: parse the file with toml.load; a TomlDecodeError is
re-raised as a ConfigError carrying the path and the diagnostic; a pydantic
ValidationError from Settings(**...) is not caught and propagates as is. -/
def _read_config (w : World) (filename : String) : Except PyErr Settings :=
  match w.parseToml (w.readFile filename) with
  | .ok parsed => settingsNew w parsed
  | .error e =>
    .error (.configError ("failed to load config file '" ++ filename ++ "': " ++ e))

/-- Config.init: read the located file when a path was found, otherwise
construct Settings purely from defaults and the environment. -/
def config_init (w : World) (path : String) : Except PyErr Settings :=
  if path = "" then settingsNew w [] else _read_config w path

/-- The process-wide registry Config._instances (an association list keyed
by None or by a resolved absolute path string; later insertions shadow) plus
an allocation counter standing for object identity: two wrapper objects are
the identical Python object precisely when they carry the same id. -/
instance {e a : Type} [DecidableEq e] [DecidableEq a] : DecidableEq (Except e a) :=
  fun x y =>
    match x, y with
    | .ok u, .ok v =>
      if h : u = v then .isTrue (by rw [h]) else
        .isFalse (fun hc => h (Except.ok.inj hc))
    | .ok _, .error _ => .isFalse (fun hc => Except.noConfusion hc)
    | .error _, .ok _ => .isFalse (fun hc => Except.noConfusion hc)
    | .error u, .error v =>
      if h : u = v then .isTrue (by rw [h]) else
        .isFalse (fun hc => h (Except.error.inj hc))

structure RegState where
  instances : List (Option String × Nat)
  nextId : Nat
deriving DecidableEq

def iLookup : List (Option String × Nat) → Option String → Option Nat
  | [], _ => none
  | (k1, i) :: rest, k => if k1 = k then some i else iLookup rest k

def regLookup (st : RegState) (k : Option String) : Option Nat :=
  iLookup st.instances k

def regInsert (st : RegState) (k : Option String) (i : Nat) : RegState :=
  { instances := (k, i) :: st.instances, nextId := st.nextId }

/-- Python truthiness of the deployment_config argument: None and the empty
string are falsy. -/
def dcFalsy : Option String → Bool
  | none => true
  | some s => decide (s = "")

/-- The resolved registry key: abspath of the located file, or the empty
string when find_file returns None (the TypeError branch in __new__). -/
def resolvedPath (w : World) (dc : Option String) : String :=
  match find_file w dc with
  | some f => w.abspath f
  | none => ""

/-- The slow path of Config.__new__: resolve the path, return the cached
wrapper if the path is registered, otherwise allocate a wrapper, run init
(failures propagate, leaving the registry untouched), register it under the
path and, when no explicit path was supplied, also under the None key. -/
def configNewSlow (w : World) (dc : Option String) (st : RegState) :
    Except PyErr Nat × RegState :=
  match regLookup st (some (resolvedPath w dc)) with
  | some i => (.ok i, st)
  | none =>
    match config_init w (resolvedPath w dc) with
    | .error e => (.error e, st)
    | .ok _ =>
      if dcFalsy dc then
        (.ok st.nextId,
          { instances := (regInsert (regInsert st (some (resolvedPath w dc)) st.nextId)
              none st.nextId).instances
            nextId := st.nextId + 1 })
      else
        (.ok st.nextId,
          { instances := (regInsert st (some (resolvedPath w dc)) st.nextId).instances
            nextId := st.nextId + 1 })

/-- Config.__new__: with no (falsy) explicit path and a wrapper already
registered under None, short-circuit to it; otherwise take the slow path. -/
def config_new (w : World) (dc : Option String) (st : RegState) :
    Except PyErr Nat × RegState :=
  match regLookup st none with
  | some i => if dcFalsy dc then (.ok i, st) else configNewSlow w dc st
  | none => configNewSlow w dc st

/-- Registry states reachable in one process by any sequence of Config()
calls (the world, i.e. the environment and filesystem, is fixed). -/
inductive Reachable (w : World) : RegState → Prop where
  | base : Reachable w { instances := [], nextId := 0 }
  | step (dc : Option String) (st : RegState) :
      Reachable w st → Reachable w (config_new w dc st).2

/-- The attribute names pydantic BaseModel instances expose besides their
declared fields; there is no method named get among them. -/
def pydanticMethods : List String :=
  ["dict", "json", "copy", "schema", "schema_json", "parse_obj", "parse_raw",
   "parse_file", "from_orm", "construct", "validate", "update_forward_refs"]

def optVal {α : Type} : Option α → PyVal
  | some _ => .vSection
  | none => .vNone

/-- getattr on the pydantic Settings instance: the nineteen declared section
fields resolve to their values (model instances are opaque truthy objects,
absent optional sections are None); BaseModel methods resolve; everything
else, in particular flat names such as s3_access_key, logging_level or
plugins_enabled, raises AttributeError (modelled as none). -/
def settingsGetattr (s : Settings) (name : String) : Option PyVal :=
  match name with
  | "general" => some .vSection
  | "cors" => some (optVal s.cors)
  | "github" => some (optVal s.github)
  | "gitlab" => some (optVal s.gitlab)
  | "azuread" => some (optVal s.azuread)
  | "sqlalchemy" => some .vSection
  | "session" => some .vSection
  | "local_store" => some .vSection
  | "s3" => some (optVal s.s3)
  | "azure_blob" => some (optVal s.azure_blob)
  | "gcs" => some (optVal s.gcs)
  | "google" => some (optVal s.google)
  | "logging" => some (optVal s.logging)
  | "users" => some (optVal s.users)
  | "worker" => some (optVal s.worker)
  | "plugins" => some .vSection
  | "mirroring" => some .vSection
  | "quotas" => some (optVal s.quotas)
  | "profiling" => some (optVal s.profiling)
  | _ => if pydanticMethods.contains name then some (.vMethod name) else none

/-- Python truthiness of the modelled values; pydantic model instances
define neither bool nor len and are therefore truthy. -/
def pyTruthy : PyVal → Bool
  | .vStr s => s != ""
  | .vInt i => i != 0
  | .vBool b => b
  | .vStrList l => !l.isEmpty
  | .vNone => false
  | .vSection => true
  | .vMethod _ => true

/-- Config.configured_section: bool(getattr(self.config, section)). -/
def configured_section (s : Settings) (sec : String) : Except PyErr Bool :=
  match settingsGetattr s sec with
  | some v => .ok (pyTruthy v)
  | none => .error (.attributeError sec)

def wrapperMethods : List String :=
  ["find_file", "init", "_read_config", "get_package_store", "configured_section"]

/-- getattr on the Config wrapper: its own instance attribute config and its
methods, then Config.__getattr__ forwards everything else unchanged to the
Settings instance (no flattening of nested sections takes place). -/
def wrapperGetattr (s : Settings) (name : String) : Option PyVal :=
  if name = "config" then some .vSection
  else if wrapperMethods.contains name then some (.vMethod name)
  else settingsGetattr s name

/-- An attribute read that raises AttributeError when absent. -/
def flatAttr (s : Settings) (name : String) : Except PyErr PyVal :=
  match wrapperGetattr s name with
  | some v => .ok v
  | none => .error (.attributeError name)

def asStr : PyVal → String
  | .vStr s => s
  | _ => ""

def asInt : PyVal → Int
  | .vInt i => i
  | _ => 0

/-- The parameter bundles handed to the pkgstores backends. -/
inductive PackageStore where
  | s3Store (key secret url region bucketPre bucketSuf : String)
  | azureBlobStore (accountName accountAccessKey connStr containerPre containerSuf : String)
  | gcsStore (project token bucketPre bucketSuf : String)
      (cacheTimeout : Option Int) (region : Option String)
  | localStore (channelsDir : String) (redirectEnabled : Bool)
      (redirectEndpoint redirectSecret : String) (redirectExpiration : Int)
deriving DecidableEq

/-- Config.get_package_store.  The very first step, self.config.get, is an
attribute lookup of get on the pydantic Settings instance, which raises
AttributeError; the remaining branches mirror the source (a Mapping-style
get of a section key is modelled as the section attribute, and the flat
attribute reads such as self.s3_access_key go through the wrapper) but are
unreachable. -/
def get_package_store (s : Settings) : Except PyErr PackageStore := do
  let _g ← flatAttr s "get"
  if pyTruthy (← flatAttr s "s3") then
    return .s3Store (asStr (← flatAttr s "s3_access_key"))
      (asStr (← flatAttr s "s3_secret_key"))
      (asStr (← flatAttr s "s3_url"))
      (asStr (← flatAttr s "s3_region"))
      (asStr (← flatAttr s "s3_bucket_prefix"))
      (asStr (← flatAttr s "s3_bucket_suffix"))
  else if pyTruthy (← flatAttr s "azure_blob") then
    return .azureBlobStore (asStr (← flatAttr s "azure_blob_account_name"))
      (asStr (← flatAttr s "azure_blob_account_access_key"))
      (asStr (← flatAttr s "azure_blob_conn_str"))
      (asStr (← flatAttr s "azure_blob_container_prefix"))
      (asStr (← flatAttr s "azure_blob_container_suffix"))
  else if pyTruthy (← flatAttr s "gcs") then
    return .gcsStore (asStr (← flatAttr s "gcs_project"))
      (asStr (← flatAttr s "gcs_token"))
      (asStr (← flatAttr s "gcs_bucket_prefix"))
      (asStr (← flatAttr s "gcs_bucket_suffix"))
      none none
  else
    return .localStore "channels"
      (pyTruthy (← flatAttr s "local_store_redirect_enabled"))
      (asStr (← flatAttr s "local_store_redirect_endpoint"))
      (asStr (← flatAttr s "local_store_redirect_secret"))
      (asInt (← flatAttr s "local_store_redirect_expiration"))

/-- The declarative logging configuration produced by get_logger_config:
the effective level (bound to the console handler, the file handler and
every named logger), the enabled handler set, the file handler filename,
and the configured logger names. -/
structure LogConfig where
  level : String
  handlers : List String
  fileFilename : String
  loggers : List String
deriving DecidableEq

/-- ASCII uppercasing, modelling str.upper on log level names. -/
def charUpper (c : Char) : Char :=
  if c.isLower then Char.ofNat (c.toNat - 32) else c

def pyUpper (s : String) : String :=
  String.mk (s.data.map charUpper)

/-- get_logger_config: hasattr(config, logging_level) follows the wrapper
attribute path (no flat logging_level attribute exists), falling back to
INFO; QUETZ_LOG_LEVEL, when set, replaces the level; the result is
uppercased; the file handler joins only when a filename is truthy. -/
def get_logger_config (w : World) (cfg : Option Settings) (loggers : List String) :
    LogConfig :=
  let log_level0 :=
    match cfg with
    | some s =>
      match wrapperGetattr s "logging_level" with
      | some v => asStr v
      | none => "INFO"
    | none => "INFO"
  let filename0 : Option String :=
    match cfg with
    | some s =>
      match wrapperGetattr s "logging_file" with
      | some v => some (asStr v)
      | none => none
    | none => none
  let log_level := pyUpper ((envGet w.env "QUETZ_LOG_LEVEL").getD log_level0)
  let fname := filename0.getD ""
  let handlers := if fname = "" then ["console"] else ["console", "file"]
  { level := log_level
    handlers := handlers
    fileFilename := if fname = "" then w.curdir ++ "/quetz.log" else fname
    loggers := loggers }

/-- get_plugin_manager: when configured_section("plugins") holds, load the
entry points named by config.plugins_enabled (a flat attribute read through
the wrapper); otherwise load every discoverable quetz entry point. -/
def get_plugin_manager (w : World) (s : Settings) : Except PyErr (List String) := do
  if (← configured_section s "plugins") then
    match wrapperGetattr s "plugins_enabled" with
    | some (.vStrList names) => return names.filter (fun n => w.installedPlugins.contains n)
    | some _ => return []
    | none => throw (.attributeError "plugins_enabled")
  else
    return w.installedPlugins

/-- Module-level state of quetz.config: the default for create_config's
secret parameter, token_bytes(32).hex(), is evaluated exactly once when the
def statement runs. -/
structure ModuleState where
  defaultSecret : String

/-- str.format over the packaged config.toml template, modelled as literal
chunks interleaved with the five positional placeholders. -/
def renderTemplate (tpl : List (Sum String (Fin 5))) (args : List String) : String :=
  (tpl.map (fun part =>
    match part with
    | .inl lit => lit
    | .inr i => args.getD i "")).foldl (fun a b => a ++ b) ""

/-- create_config: substitute client id, client secret, database url, the
session secret (the module-level default when the argument is omitted) and
the https flag into the template. -/
def create_config (m : ModuleState) (tpl : List (Sum String (Fin 5)))
    (client_id client_secret database_url : String) (secret : Option String)
    (https : String) : String :=
  renderTemplate tpl [client_id, client_secret, database_url,
    secret.getD m.defaultSecret, https]

/-- One field of a pydantic section schema for the generic construction
model: its name and its default (none means required). -/
structure FieldSpec where
  name : String
  default : Option PyVal
deriving DecidableEq

/-- The env-settings source of BaseSettings._build_values: every field whose
environment variable (env_prefix ++ field name, case-insensitive) is set,
as a raw string value. -/
def envSettings (env : Env) (pre : String) (schema : List FieldSpec) : Table :=
  schema.filterMap (fun f =>
    ((envLookup env (pre ++ f.name)).map PyVal.vStr).map (fun v => (f.name, v)))

/-- pydantic deep_update: the init kwargs override the env settings. -/
def deepUpdate (base over : Table) : Table :=
  over ++ base.filter (fun p => (tblLookup over p.1).isNone)

/-- The fields of a schema that have neither a merged value nor a default:
these fail validation. -/
def missingFields (schema : List FieldSpec) (values : Table) : List FieldSpec :=
  schema.filter (fun f => (tblLookup values f.name).isNone && f.default.isNone)

/-- Validation: every schema field takes its merged value or its default;
fields with neither are collected as missing and fail the model. -/
def validateFields (schema : List FieldSpec) (values : Table) :
    Except (List String) Table :=
  if (missingFields schema values).isEmpty then
    .ok (schema.filterMap (fun f =>
      ((tblLookup values f.name).orElse (fun _ => f.default)).map
        (fun v => (f.name, v))))
  else
    .error ((missingFields schema values).map FieldSpec.name)

/-- BaseSettings construction of one section: deep_update of the env
settings with the init kwargs (the parsed file section), then validation. -/
def resolveSection (env : Env) (pre : String) (schema : List FieldSpec)
    (kwargs : Table) : Except (List String) Table :=
  validateFields schema (deepUpdate (envSettings env pre schema) kwargs)

/-- The SettingsSQLAlchemy schema (env_prefix sqlalchemy). -/
def sqlalchemySchema : List FieldSpec :=
  [{ name := "database_url", default := none },
   { name := "database_plugin_path", default := some (.vStr "") },
   { name := "echo_sql", default := some (.vBool false) },
   { name := "postgres_pool_size", default := some (.vInt 100) },
   { name := "postgres_max_overflow", default := some (.vInt 100) }]

/-- Registry coherence: whatever wrapper the None key points at is also
registered under the path that a no-argument resolution resolves to.  This
holds of every reachable registry and is what makes the None-key
short-circuit agree with path-keyed lookups. -/
def Coh (w : World) (st : RegState) : Prop :=
  ∀ i, regLookup st none = some i →
    regLookup st (some (resolvedPath w none)) = some i

/-- A quiescent world for concrete evaluations: empty environment, no
files. -/
def baseWorld : World :=
  { env := []
    isfile := fun _ => false
    readFile := fun _ => ""
    abspath := fun s => s
    parseToml := fun _ => .error "empty document"
    parseJsonTable := fun _ => none
    parseJsonStrList := fun _ => none
    site_dir := "/etc/xdg/quetz"
    user_dir := "/home/user/.config/quetz"
    curdir := "/cwd"
    installedPlugins := [] }

/-- A minimal well-formed configuration file content, parsed. -/
def demoToml : Toml :=
  [("sqlalchemy", [("database_url", .vStr "sqlite:///quetz.sqlite")]),
   ("session", [("secret", .vStr "abcdef")])]

/-- A world whose site-level configuration file exists and parses to
demoToml. -/
def wSite : World :=
  { baseWorld with
    isfile := fun f => f == "/etc/xdg/quetz/config.toml"
    parseToml := fun _ => .ok demoToml }

/-- The registry after the first successful no-argument resolution in
wSite. -/
def stSite : RegState :=
  { instances := [(none, 0), (some "/etc/xdg/quetz/config.toml", 0)], nextId := 1 }

/-- A world whose toml parser fails with a fixed diagnostic. -/
def wBadToml : World :=
  { baseWorld with
    isfile := fun f => f == "/etc/xdg/quetz/config.toml"
    parseToml := fun _ => .error "Invalid key (line 1 column 1 char 0)" }

def wLogEnv : World := { baseWorld with env := [("QUETZ_LOG_LEVEL", "debug")] }

def exSqlalchemy : SettingsSQLAlchemy :=
  { database_url := "sqlite:///quetz.sqlite", database_plugin_path := "",
    echo_sql := false, postgres_pool_size := 100, postgres_max_overflow := 100 }

def exSession : SettingsSession := { secret := "supersecret", https_only := true }

/-- A resolved configuration whose logging section is present with level
DEBUG. -/
def settingsWithLogging : Settings :=
  { general := defGeneral, cors := none, github := none, gitlab := none,
    azuread := none, sqlalchemy := exSqlalchemy, session := exSession,
    local_store := defLocalStore, s3 := none, azure_blob := none, gcs := none,
    google := none, logging := some { level := "DEBUG", file := "" },
    users := none, worker := none, plugins := defPlugins,
    mirroring := defMirroring, quotas := none, profiling := none }

/-- A resolved configuration whose plugins section lists one enabled
plugin. -/
def settingsWithPlugins : Settings :=
  { settingsWithLogging with plugins := { enabled := ["quetz-demo-plugin"] } }

def wPlugins : World := { baseWorld with installedPlugins := ["quetz-demo-plugin"] }

/-- Environment for the precedence scenario: the sqlalchemy database_url
variable is set. -/
def c2env : Env := [("SQLALCHEMYDATABASE_URL", "postgres://env")]

/-- File section for the precedence scenario: database_url is also set in
the file. -/
def c2kwargs : Table := [("database_url", .vStr "postgres://file")]

/-- The section table the embedding resolves in the precedence scenario. -/
def c2resolved : Table :=
  [("database_url", .vStr "postgres://file"),
   ("database_plugin_path", .vStr ""),
   ("echo_sql", .vBool false),
   ("postgres_pool_size", .vInt 100),
   ("postgres_max_overflow", .vInt 100)]

theorem pyTruthy_optVal {α : Type} (o : Option α) :
    pyTruthy (optVal o) = o.isSome := by
  cases o <;> rfl

/-- C3 (code bug): storage-backend selection never reaches any branch: the
first step of get_package_store evaluates self.config.get, an attribute
lookup on the pydantic Settings instance, which has no method named get, so
every call raises AttributeError instead of producing a descriptor. -/
theorem c3_get_package_store_raises (s : Settings) :
    get_package_store s = .error (.attributeError "get") := rfl

/-- C4 (confirmed): when the located file is syntactically malformed, i.e.
toml parsing fails with some diagnostic, _read_config fails with a
ConfigError whose message carries the source path and the diagnostic, and
no settings instance of any kind is produced. -/
theorem c4_parse_failure (w : World) (filename diag : String)
    (h : w.parseToml (w.readFile filename) = .error diag) :
    _read_config w filename =
      .error (.configError
        ("failed to load config file '" ++ filename ++ "': " ++ diag)) := by
  unfold _read_config
  rw [h]

theorem c4_parse_failure_witness :
    _read_config wBadToml "/etc/xdg/quetz/config.toml" =
      .error (.configError
        ("failed to load config file '" ++ "/etc/xdg/quetz/config.toml" ++ "': " ++
          "Invalid key (line 1 column 1 char 0)")) :=
  c4_parse_failure wBadToml "/etc/xdg/quetz/config.toml"
    "Invalid key (line 1 column 1 char 0)" rfl

/-- C7 (code bug): with the logging section present at level DEBUG and no
environment override, the built configuration's effective level is INFO,
not the section's level (the wrapper exposes no flat logging_level
attribute, so the hasattr test always fails); the environment-variable
override half of the claim does hold: QUETZ_LOG_LEVEL set to debug yields
effective level DEBUG (uppercased) unconditionally. -/
theorem c7_logging_level_ignored :
    (get_logger_config baseWorld (some settingsWithLogging) ["quetz"]).level = "INFO" ∧
    settingsWithLogging.logging = some { level := "DEBUG", file := "" } ∧
    (get_logger_config wLogEnv (some settingsWithLogging) ["quetz"]).level = "DEBUG" :=
  ⟨by decide, rfl, by decide⟩

/-- C8 (code bug): the presence test configured_section("plugins") is true
for every resolved configuration, because the plugins field always holds a
truthy default instance, so the unfiltered load-all branch is unreachable;
and the filtered branch raises AttributeError because the wrapper exposes
no flat plugins_enabled attribute, so bootstrapping never loads anything. -/
theorem c8_plugin_bootstrap_raises :
    (∀ s : Settings, configured_section s "plugins" = .ok true) ∧
    get_plugin_manager wPlugins settingsWithPlugins =
      .error (.attributeError "plugins_enabled") :=
  ⟨fun _ => rfl, rfl⟩

/-- C9 (confirmed): the default session secret, token_bytes(32).hex(), is
evaluated once when the create_config def statement runs; hence any two
calls in the same process that omit the secret argument render the template
with one and the same secret value (the module-level default), never a
per-call fresh one. -/
theorem c9_secret_once_per_process (m : ModuleState) (tpl : List (Sum String (Fin 5)))
    (cid1 cs1 db1 ht1 cid2 cs2 db2 ht2 : String) :
    ∃ sec : String,
      create_config m tpl cid1 cs1 db1 none ht1 =
        renderTemplate tpl [cid1, cs1, db1, sec, ht1] ∧
      create_config m tpl cid2 cs2 db2 none ht2 =
        renderTemplate tpl [cid2, cs2, db2, sec, ht2] :=
  ⟨m.defaultSecret, rfl, rfl⟩

/-- C10 (confirmed): configured_section tests the truthiness of the section
attribute; the always-present sections (general, sqlalchemy, session,
local_store, plugins, mirroring) are truthy model instances, so the query
is true for them in every resolved configuration, including the
defaults-only one, and for each optional section it is true exactly when
the section is not None. -/
theorem c10_configured_section_truthiness (s : Settings) :
    configured_section s "general" = .ok true ∧
    configured_section s "sqlalchemy" = .ok true ∧
    configured_section s "session" = .ok true ∧
    configured_section s "local_store" = .ok true ∧
    configured_section s "plugins" = .ok true ∧
    configured_section s "mirroring" = .ok true ∧
    configured_section s "cors" = .ok s.cors.isSome ∧
    configured_section s "github" = .ok s.github.isSome ∧
    configured_section s "gitlab" = .ok s.gitlab.isSome ∧
    configured_section s "azuread" = .ok s.azuread.isSome ∧
    configured_section s "s3" = .ok s.s3.isSome ∧
    configured_section s "azure_blob" = .ok s.azure_blob.isSome ∧
    configured_section s "gcs" = .ok s.gcs.isSome ∧
    configured_section s "google" = .ok s.google.isSome ∧
    configured_section s "logging" = .ok s.logging.isSome ∧
    configured_section s "users" = .ok s.users.isSome ∧
    configured_section s "worker" = .ok s.worker.isSome ∧
    configured_section s "quotas" = .ok s.quotas.isSome ∧
    configured_section s "profiling" = .ok s.profiling.isSome := by
  refine ⟨rfl, rfl, rfl, rfl, rfl, rfl, ?_, ?_, ?_, ?_, ?_, ?_, ?_, ?_, ?_, ?_,
    ?_, ?_, ?_⟩ <;>
    exact congrArg Except.ok (pyTruthy_optVal _)

/-- C6 (confirmed): find_file returns the first existing candidate in the
fixed order site-dir file, user-dir file, explicit path, env-named path
(the last two considered only when truthy and regular files), returns none
when no candidate exists, and in particular selects the site-level file
whenever it exists, regardless of the other candidates. -/
theorem c6_find_file_order (w : World) (dc : Option String) :
    (w.isfile (siteFile w) = true → find_file w dc = some (siteFile w)) ∧
    (w.isfile (siteFile w) = false → w.isfile (userFile w) = true →
      find_file w dc = some (userFile w)) ∧
    (∀ p, w.isfile (siteFile w) = false → w.isfile (userFile w) = false →
      dc = some p → p ≠ "" → w.isfile p = true → find_file w dc = some p) ∧
    (∀ q, w.isfile (siteFile w) = false → w.isfile (userFile w) = false →
      (∀ p, dc = some p → p = "" ∨ w.isfile p = false) →
      envGet w.env "QUETZ_CONFIG_FILE" = some q → q ≠ "" → w.isfile q = true →
      find_file w dc = some q) ∧
    (w.isfile (siteFile w) = false → w.isfile (userFile w) = false →
      (∀ p, dc = some p → p = "" ∨ w.isfile p = false) →
      (∀ q, envGet w.env "QUETZ_CONFIG_FILE" = some q → q = "" ∨ w.isfile q = false) →
      find_file w dc = none) := by
  refine ⟨?_, ?_, ?_, ?_, ?_⟩
  · intro hs
    simp [find_file, firstExisting, hs]
  · intro hs hu
    simp [find_file, firstExisting, hs, hu]
  · intro p hs hu hdc hp hpf
    subst hdc
    cases hcf : envGet w.env "QUETZ_CONFIG_FILE" <;>
      simp [find_file, firstExisting, hs, hu, hp, hpf, hcf]
  · intro q hs hu hdcf hcf hq hqf
    cases hdc : dc with
    | none =>
      simp [find_file, firstExisting, hs, hu, hcf, hq, hqf]
    | some p =>
      rcases hdcf p hdc with hpe | hpf
      · subst hpe
        simp [find_file, firstExisting, hs, hu, hcf, hq, hqf]
      · simp [find_file, firstExisting, hs, hu, hcf, hq, hqf, hpf]
  · intro hs hu hdcf hcff
    cases hdc : dc with
    | none =>
      cases hcf : envGet w.env "QUETZ_CONFIG_FILE" with
      | none => simp [find_file, firstExisting, hs, hu, hcf]
      | some q =>
        rcases hcff q hcf with hqe | hqf
        · subst hqe
          simp [find_file, firstExisting, hs, hu, hcf]
        · simp [find_file, firstExisting, hs, hu, hcf, hqf]
    | some p =>
      cases hcf : envGet w.env "QUETZ_CONFIG_FILE" with
      | none =>
        rcases hdcf p hdc with hpe | hpf
        · subst hpe
          simp [find_file, firstExisting, hs, hu, hcf]
        · simp [find_file, firstExisting, hs, hu, hcf, hpf]
      | some q =>
        rcases hdcf p hdc with hpe | hpf <;> rcases hcff q hcf with hqe | hqf
        · subst hpe; subst hqe
          simp [find_file, firstExisting, hs, hu, hcf]
        · subst hpe
          simp [find_file, firstExisting, hs, hu, hcf, hqf]
        · subst hqe
          simp [find_file, firstExisting, hs, hu, hcf, hpf]
        · simp [find_file, firstExisting, hs, hu, hcf, hpf, hqf]

theorem c6_find_file_order_witness :
    wSite.isfile (siteFile wSite) = true ∧
    find_file wSite (some "/tmp/other.toml") = some (siteFile wSite) :=
  ⟨by decide, (c6_find_file_order wSite (some "/tmp/other.toml")).1 (by decide)⟩

theorem tblLookup_append (t1 t2 : Table) (k : String) :
    tblLookup (t1 ++ t2) k = (tblLookup t1 k).orElse (fun _ => tblLookup t2 k) := by
  induction t1 with
  | nil => simp [tblLookup]
  | cons hd t ih =>
    obtain ⟨k1, v⟩ := hd
    by_cases hk : k1 = k <;> simp [tblLookup, hk, ih]

theorem tblLookup_filter_of_none (base over : Table) (k : String)
    (h : tblLookup over k = none) :
    tblLookup (base.filter (fun p => (tblLookup over p.1).isNone)) k =
      tblLookup base k := by
  induction base with
  | nil => rfl
  | cons hd t ih =>
    obtain ⟨k1, v⟩ := hd
    by_cases hk : k1 = k
    · subst hk
      simp [List.filter_cons, h, tblLookup]
    · by_cases hc : (tblLookup over k1).isNone <;>
        simp [List.filter_cons, hc, tblLookup, hk, ih]

theorem deepUpdate_lookup (base over : Table) (k : String) :
    tblLookup (deepUpdate base over) k =
      (tblLookup over k).orElse (fun _ => tblLookup base k) := by
  unfold deepUpdate
  rw [tblLookup_append]
  cases h : tblLookup over k with
  | some v => simp
  | none => simp [tblLookup_filter_of_none base over k h]

theorem tblLookup_fieldMap_notMem (g : FieldSpec → Option PyVal)
    (schema : List FieldSpec) (k : String)
    (h : ∀ f, f ∈ schema → f.name ≠ k) :
    tblLookup (schema.filterMap (fun x => (g x).map (fun v => (x.name, v)))) k =
      none := by
  induction schema with
  | nil => rfl
  | cons x t ih =>
    have hx : x.name ≠ k := h x (List.mem_cons_self x t)
    have ht : ∀ f, f ∈ t → f.name ≠ k := fun f hf => h f (List.mem_cons_of_mem _ hf)
    cases hg : g x with
    | none => simpa [List.filterMap_cons, hg] using ih ht
    | some v => simpa [List.filterMap_cons, hg, tblLookup, hx] using ih ht

theorem tblLookup_fieldMap (g : FieldSpec → Option PyVal)
    (schema : List FieldSpec) (f : FieldSpec)
    (hnd : (schema.map FieldSpec.name).Nodup) (hf : f ∈ schema) :
    tblLookup (schema.filterMap (fun x => (g x).map (fun v => (x.name, v)))) f.name =
      g f := by
  induction schema with
  | nil => cases hf
  | cons x t ih =>
    rw [List.map_cons, List.nodup_cons] at hnd
    obtain ⟨hxn, hnd2⟩ := hnd
    rcases List.mem_cons.mp hf with rfl | hft
    · cases hg : g f with
      | some v => simp [List.filterMap_cons, hg, tblLookup]
      | none =>
        have hnm : ∀ y, y ∈ t → y.name ≠ f.name := fun y hy hyk =>
          hxn (hyk ▸ List.mem_map_of_mem FieldSpec.name hy)
        simp [List.filterMap_cons, hg, tblLookup_fieldMap_notMem g t f.name hnm]
    · have hxf : x.name ≠ f.name := by
        intro he
        exact hxn (he ▸ List.mem_map_of_mem FieldSpec.name hft)
      cases hg : g x with
      | some v =>
        simpa [List.filterMap_cons, hg, tblLookup, hxf] using ih hnd2 hft
      | none =>
        simpa [List.filterMap_cons, hg] using ih hnd2 hft

/-- C2 (corrected): the resolved value of a configuration field follows the
precedence file value over environment variable over built-in default (not
environment over file): when a section is constructed from its parsed file
table, a field present in the table keeps the file value, a field absent
from the table takes the value of the env_prefix ++ field-name environment
variable if set, and otherwise the schema default. -/
theorem c2_field_precedence (env : Env) (pre : String) (schema : List FieldSpec)
    (kwargs resolved : Table) (f : FieldSpec)
    (hnd : (schema.map FieldSpec.name).Nodup) (hf : f ∈ schema)
    (hok : resolveSection env pre schema kwargs = .ok resolved) :
    tblLookup resolved f.name =
      (tblLookup kwargs f.name).orElse (fun _ =>
        ((envLookup env (pre ++ f.name)).map PyVal.vStr).orElse
          (fun _ => f.default)) := by
  unfold resolveSection validateFields at hok
  split at hok
  case isFalse => exact absurd hok (by simp)
  case isTrue hmiss =>
    have hres : resolved = schema.filterMap (fun x =>
        ((tblLookup (deepUpdate (envSettings env pre schema) kwargs) x.name).orElse
          (fun _ => x.default)).map (fun v => (x.name, v))) := by
      injection hok with h
      exact h.symm
    subst hres
    rw [tblLookup_fieldMap
      (fun x => ((tblLookup (deepUpdate (envSettings env pre schema) kwargs) x.name).orElse
        (fun _ => x.default))) schema f hnd hf]
    rw [deepUpdate_lookup]
    rw [show envSettings env pre schema = schema.filterMap (fun x =>
      (((envLookup env (pre ++ x.name)).map PyVal.vStr)).map (fun v => (x.name, v)))
      from rfl]
    rw [tblLookup_fieldMap
      (fun x => (envLookup env (pre ++ x.name)).map PyVal.vStr) schema f hnd hf]
    cases tblLookup kwargs f.name <;> cases envLookup env (pre ++ f.name) <;> simp

theorem c2_field_precedence_witness :
    tblLookup c2resolved "database_url" =
      (tblLookup c2kwargs "database_url").orElse (fun _ =>
        ((envLookup c2env ("sqlalchemy" ++ "database_url")).map PyVal.vStr).orElse
          (fun _ => FieldSpec.default { name := "database_url", default := none })) :=
  c2_field_precedence c2env "sqlalchemy" sqlalchemySchema c2kwargs c2resolved
    { name := "database_url", default := none }
    (by decide) (by decide) (by decide)

/-- C2 counterexample: with sqlalchemy.database_url set in the file to one
value and the corresponding environment variable set to another, the
resolved field equals the file value, not the environment value, refuting
the claimed environment-over-file precedence. -/
theorem c2_counterexample :
    envLookup c2env ("sqlalchemy" ++ "database_url") = some "postgres://env" ∧
    resolveSection c2env "sqlalchemy" sqlalchemySchema c2kwargs = .ok c2resolved ∧
    tblLookup c2resolved "database_url" = some (.vStr "postgres://file") ∧
    (some (PyVal.vStr "postgres://file") : Option PyVal) ≠
      some (PyVal.vStr "postgres://env") := by
  refine ⟨by decide, by decide, by decide, by decide⟩

theorem find_file_falsy (w : World) :
    find_file w (some "") = find_file w none := by
  cases hcf : envGet w.env "QUETZ_CONFIG_FILE" <;> simp [find_file, hcf]

theorem resolvedPath_falsy (w : World) (dc : Option String) (h : dcFalsy dc = true) :
    resolvedPath w dc = resolvedPath w none := by
  cases dc with
  | none => rfl
  | some s =>
    have hs : s = "" := by simpa [dcFalsy] using h
    subst hs
    unfold resolvedPath
    rw [find_file_falsy]

theorem configNewSlow_ok_lookup (w : World) (dc : Option String) (st st2 : RegState)
    (i : Nat) (h : configNewSlow w dc st = (.ok i, st2)) :
    regLookup st2 (some (resolvedPath w dc)) = some i := by
  unfold configNewSlow at h
  cases hl : regLookup st (some (resolvedPath w dc)) with
  | some j =>
    rw [hl] at h
    simp only [Prod.mk.injEq, Except.ok.injEq] at h
    obtain ⟨h1, h2⟩ := h
    subst h1
    subst h2
    exact hl
  | none =>
    rw [hl] at h
    cases hi : config_init w (resolvedPath w dc) with
    | error e => rw [hi] at h; simp at h
    | ok sval =>
      rw [hi] at h
      by_cases hdc : dcFalsy dc
      · rw [if_pos hdc] at h
        simp only [Prod.mk.injEq, Except.ok.injEq] at h
        obtain ⟨h1, h2⟩ := h
        subst h1
        rw [← h2]
        simp [regLookup, iLookup, regInsert]
      · rw [if_neg hdc] at h
        simp only [Prod.mk.injEq, Except.ok.injEq] at h
        obtain ⟨h1, h2⟩ := h
        subst h1
        rw [← h2]
        simp [regLookup, iLookup, regInsert]

theorem config_new_ok_lookup (w : World) (dc : Option String) (st st2 : RegState)
    (i : Nat) (hcoh : Coh w st) (h : config_new w dc st = (.ok i, st2)) :
    regLookup st2 (some (resolvedPath w dc)) = some i := by
  unfold config_new at h
  cases hn : regLookup st none with
  | none =>
    rw [hn] at h
    exact configNewSlow_ok_lookup w dc st st2 i h
  | some j =>
    rw [hn] at h
    dsimp only at h
    by_cases hdc : dcFalsy dc
    · rw [if_pos hdc] at h
      simp only [Prod.mk.injEq, Except.ok.injEq] at h
      obtain ⟨h1, h2⟩ := h
      subst h1
      subst h2
      rw [resolvedPath_falsy w dc hdc]
      exact hcoh _ hn
    · rw [if_neg hdc] at h
      exact configNewSlow_ok_lookup w dc st st2 i h

theorem config_new_ok_hit (w : World) (dc : Option String) (st st2 : RegState)
    (i i2 : Nat) (hcoh : Coh w st)
    (hhit : regLookup st (some (resolvedPath w dc)) = some i)
    (h : config_new w dc st = (.ok i2, st2)) : i2 = i ∧ st2 = st := by
  unfold config_new at h
  cases hn : regLookup st none with
  | none =>
    rw [hn] at h
    unfold configNewSlow at h
    rw [hhit] at h
    simp only [Prod.mk.injEq, Except.ok.injEq] at h
    exact ⟨h.1.symm, h.2.symm⟩
  | some j =>
    rw [hn] at h
    dsimp only at h
    by_cases hdc : dcFalsy dc
    · rw [if_pos hdc] at h
      simp only [Prod.mk.injEq, Except.ok.injEq] at h
      have hj : regLookup st (some (resolvedPath w dc)) = some j := by
        rw [resolvedPath_falsy w dc hdc]
        exact hcoh _ hn
      rw [hhit] at hj
      obtain ⟨h1, h2⟩ := h
      refine ⟨?_, h2.symm⟩
      rw [← h1]
      exact (Option.some.inj hj).symm
    · rw [if_neg hdc] at h
      unfold configNewSlow at h
      rw [hhit] at h
      simp only [Prod.mk.injEq, Except.ok.injEq] at h
      exact ⟨h.1.symm, h.2.symm⟩

theorem coh_slow (w : World) (dc : Option String) (st : RegState) (hcoh : Coh w st) :
    Coh w (configNewSlow w dc st).2 := by
  cases hl : regLookup st (some (resolvedPath w dc)) with
  | some j => simpa [configNewSlow, hl] using hcoh
  | none =>
    cases hi : config_init w (resolvedPath w dc) with
    | error e => simpa [configNewSlow, hl, hi] using hcoh
    | ok sval =>
      by_cases hdc : dcFalsy dc
      · simp only [configNewSlow, hl, hi, if_pos hdc]
        intro i0 hl0
        simp only [regLookup, iLookup, regInsert] at hl0 ⊢
        rw [resolvedPath_falsy w dc hdc] at hl0 ⊢
        simp at hl0 ⊢
        exact hl0
      · simp only [configNewSlow, hl, hi, if_neg hdc]
        intro i0 hl0
        simp only [regLookup, iLookup, regInsert] at hl0 ⊢
        simp at hl0
        have h2 := hcoh i0 hl0
        by_cases hpe : resolvedPath w dc = resolvedPath w none
        · exfalso
          rw [hpe] at hl
          rw [hl] at h2
          exact Option.noConfusion h2
        · simp [hpe]
          exact h2

theorem coh_step (w : World) (dc : Option String) (st : RegState) (hcoh : Coh w st) :
    Coh w (config_new w dc st).2 := by
  cases hn : regLookup st none with
  | some j =>
    by_cases hdc : dcFalsy dc
    · simpa [config_new, hn, hdc] using hcoh
    · have he : (config_new w dc st).2 = (configNewSlow w dc st).2 := by
        simp [config_new, hn, hdc]
      rw [he]
      exact coh_slow w dc st hcoh
  | none =>
    have he : (config_new w dc st).2 = (configNewSlow w dc st).2 := by
      simp [config_new, hn]
    rw [he]
    exact coh_slow w dc st hcoh

theorem reachable_coh (w : World) (st : RegState) (h : Reachable w st) : Coh w st := by
  induction h with
  | base => intro i0 hl0; simp [regLookup, iLookup] at hl0
  | step dc st2 hre ih => exact coh_step w dc st2 ih

theorem config_new_repeat (w : World) (dc : Option String) (st st2 : RegState)
    (i : Nat) (h : config_new w dc st = (.ok i, st2)) :
    config_new w dc st2 = (.ok i, st2) := by
  unfold config_new at h
  cases hn : regLookup st none with
  | some j =>
    rw [hn] at h
    dsimp only at h
    by_cases hdc : dcFalsy dc
    · rw [if_pos hdc] at h
      simp only [Prod.mk.injEq, Except.ok.injEq] at h
      obtain ⟨h1, h2⟩ := h
      subst h1
      subst h2
      simp [config_new, hn, hdc]
    · rw [if_neg hdc] at h
      unfold configNewSlow at h
      cases hl : regLookup st (some (resolvedPath w dc)) with
      | some j2 =>
        rw [hl] at h
        simp only [Prod.mk.injEq, Except.ok.injEq] at h
        obtain ⟨h1, h2⟩ := h
        subst h1
        subst h2
        simp [config_new, hn, hdc, configNewSlow, hl]
      | none =>
        rw [hl] at h
        cases hi : config_init w (resolvedPath w dc) with
        | error e => rw [hi] at h; simp at h
        | ok sval =>
          rw [hi, if_neg hdc] at h
          simp only [Prod.mk.injEq, Except.ok.injEq] at h
          obtain ⟨h1, h2⟩ := h
          subst h1
          rw [← h2]
          cases hE : iLookup st.instances none <;>
            simp [config_new, configNewSlow, regLookup, iLookup, regInsert, hdc, hE]
  | none =>
    rw [hn] at h
    unfold configNewSlow at h
    cases hl : regLookup st (some (resolvedPath w dc)) with
    | some j2 =>
      rw [hl] at h
      simp only [Prod.mk.injEq, Except.ok.injEq] at h
      obtain ⟨h1, h2⟩ := h
      subst h1
      subst h2
      simp [config_new, hn, configNewSlow, hl]
    | none =>
      rw [hl] at h
      cases hi : config_init w (resolvedPath w dc) with
      | error e => rw [hi] at h; simp at h
      | ok sval =>
        rw [hi] at h
        by_cases hdc : dcFalsy dc
        · rw [if_pos hdc] at h
          simp only [Prod.mk.injEq, Except.ok.injEq] at h
          obtain ⟨h1, h2⟩ := h
          subst h1
          rw [← h2]
          simp [config_new, regLookup, iLookup, regInsert, hdc]
        · rw [if_neg hdc] at h
          simp only [Prod.mk.injEq, Except.ok.injEq] at h
          obtain ⟨h1, h2⟩ := h
          subst h1
          rw [← h2]
          cases hE : iLookup st.instances none <;>
            simp [config_new, configNewSlow, regLookup, iLookup, regInsert, hdc, hE]

/-- C1 (confirmed): within one process (a fixed world), once a resolution
succeeded, calling the entry point again with the same explicit path, or
again with no explicit path, returns the identical wrapper instance (same
allocation id) and leaves the registry untouched, never re-parsing; and any
later successful resolution whose resolved source path is the same returns
that same instance, so at most one wrapper instance exists per distinct
resolved source path. -/
theorem c1_registry_identity (w : World) (st st1 : RegState) (dc : Option String)
    (i1 : Nat) (hre : Reachable w st)
    (h1 : config_new w dc st = (.ok i1, st1)) :
    config_new w dc st1 = (.ok i1, st1) ∧
    ∀ dc2 i2 st2, config_new w dc2 st1 = (.ok i2, st2) →
      resolvedPath w dc2 = resolvedPath w dc → i2 = i1 := by
  have hcoh : Coh w st := reachable_coh w st hre
  have hcoh1 : Coh w st1 := by
    have h2 := coh_step w dc st hcoh
    rw [h1] at h2
    exact h2
  have hl1 : regLookup st1 (some (resolvedPath w dc)) = some i1 :=
    config_new_ok_lookup w dc st st1 i1 hcoh h1
  refine ⟨config_new_repeat w dc st st1 i1 h1, ?_⟩
  intro dc2 i2 st2 h2 hp
  have hhit : regLookup st1 (some (resolvedPath w dc2)) = some i1 := by
    rw [hp]
    exact hl1
  exact (config_new_ok_hit w dc2 st1 st2 i1 i2 hcoh1 hhit h2).1

theorem c1_registry_identity_witness :
    config_new wSite none stSite = (.ok 0, stSite) :=
  (c1_registry_identity wSite { instances := [], nextId := 0 } stSite none 0
    Reachable.base (by decide)).1

/-- C5 (confirmed): when no configuration file is located (so the resolved
path is the empty sentinel) and the environment does not supply the
mandatory sqlalchemy section, resolution fails with a validation error
naming the missing sqlalchemy field (the database connection section), and
the registry is returned exactly as it was: no wrapper is produced or
cached. -/
theorem c5_missing_mandatory (w : World) (st : RegState)
    (hnone : regLookup st none = none)
    (hempty : regLookup st (some "") = none)
    (hff : find_file w none = none)
    (henv : envTopTable w "sqlalchemy" = none) :
    ∃ locs, config_new w none st = (.error (.validationError locs), st) ∧
      ["sqlalchemy"] ∈ locs := by
  have hsql : topSrc w [] "sqlalchemy" = none := by
    simp [topSrc, tomlLookup, henv]
  have hm : ["sqlalchemy"] ∈ settingsErrs w [] := by
    unfold settingsErrs
    rw [hsql]
    simp [reqSection, errsOf]
  have hne : settingsErrs w [] ≠ [] := List.ne_nil_of_mem hm
  have hie : (settingsErrs w []).isEmpty = false := by
    cases hE : settingsErrs w [] with
    | nil => exact absurd hE hne
    | cons a l => rfl
  have hs : settingsNew w [] = .error (.validationError (settingsErrs w [])) := by
    unfold settingsNew
    simp [hie]
  have hrp : resolvedPath w none = "" := by
    simp [resolvedPath, hff]
  refine ⟨settingsErrs w [], ?_, hm⟩
  simp [config_new, hnone, configNewSlow, hrp, hempty, config_init, hs]

theorem c5_missing_mandatory_witness :
    ∃ locs,
      config_new baseWorld none { instances := [], nextId := 0 } =
        (.error (.validationError locs), { instances := [], nextId := 0 }) ∧
      ["sqlalchemy"] ∈ locs := by
  exact c5_missing_mandatory baseWorld { instances := [], nextId := 0 }
    (by decide) (by decide) (by decide) (by decide)

end Quetz
